import Mathlib

/-!
# Verification of the bank_app core (`src/bank_app.py`)

Shallow embedding of the core classes `BankAccount` and `BankingSystem`.
The GUI layer is out of scope.  Python numeric amounts are modelled as
exact rationals inside a `Value` type that also has a non-numeric
constructor, so that the `isinstance(amount, (int, float))` checks of the
source are representable.  Python exceptions (`TypeError` / `ValueError`)
become an `Err` type; a method that may raise is embedded as a function
returning the (possibly unchanged) object state together with
`Except Err String`, which is faithful because every `raise` in the source
happens before any mutation.  `uuid.uuid4()`, `datetime.date.today()` and
`datetime.datetime.now()` are ambient inputs, so the embedding takes the
fresh identifier / date / timestamp as explicit parameters.
-/

namespace BankApp

/-- A Python value passed as an amount or initial balance: either a number
(int/float, modelled exactly as a rational) or some non-numeric value. -/
inductive Value where
  | num (q : ℚ)
  | nonNumeric (descr : String)
deriving DecidableEq

/-- `isinstance(v, (int, float))` of the source. -/
def Value.isNumber : Value → Bool
  | .num _ => true
  | .nonNumeric _ => false

/-- A raised Python exception: the source raises only `TypeError` and
`ValueError`, always with a message. -/
inductive Err where
  | typeError (msg : String)
  | valueError (msg : String)
deriving DecidableEq

/-- `str(e)` on a raised exception: its message. -/
def Err.msg : Err → String
  | .typeError m => m
  | .valueError m => m

/-- The spec groups the validation errors (non-numeric or non-positive
amount, non-numeric or negative initial balance) under `InvalidAmount`.
These are exactly the `TypeError`s and the `ValueError`s of the source
other than `ValueError("Insufficient funds.")`. -/
def Err.isInvalidAmount : Err → Bool
  | .typeError _ => true
  | .valueError m =>
      m == "Deposit amount must be positive." ||
      m == "Withdrawal amount must be positive." ||
      m == "Initial balance cannot be negative."

/-- The spec's `InsufficientFunds` error: the source's
`ValueError("Insufficient funds.")`. -/
def InsufficientFunds : Err := .valueError "Insufficient funds."

/-- One entry of `BankAccount.transactions`: the dict
`{"timestamp": ..., "type": ..., "amount": ...}` built in
`_add_transaction`.  Timestamps are opaque, modelled as naturals. -/
structure Transaction where
  timestamp : Nat
  type : String
  amount : ℚ
deriving DecidableEq

/-- The `BankAccount` object state (lines 22-43 of `bank_app.py`). -/
structure BankAccount where
  account_number : String
  account_holder_name : String
  balance : ℚ
  account_type : String
  transactions : List Transaction
  creation_date : Nat
deriving DecidableEq

/-- Python `f"{x:.2f}"` on an exact rational: round to cents (ties toward
the upper cent) and print with two decimal places. -/
def fmt2 (q : ℚ) : String :=
  let c : ℤ := ⌊q * 100 + 1 / 2⌋
  let sign := if c < 0 then "-" else ""
  let n := c.natAbs
  let fr := n % 100
  let fpart := if fr < 10 then "0" ++ toString fr else toString fr
  sign ++ toString (n / 100) ++ "." ++ fpart

/-- `BankAccount.__init__` (lines 27-43).  Validates the initial balance
(`TypeError` if non-numeric, `ValueError` if negative) and otherwise builds
the object.  The generated uuid and today's date are explicit inputs. -/
def BankAccount.init (account_holder_name : String) (initial_balance : Value)
    (account_type : String) (fresh_id : String) (today : Nat) :
    Except Err BankAccount :=
  match initial_balance with
  | .nonNumeric _ => .error (.typeError "Initial balance must be a number.")
  | .num b =>
      if b < 0 then .error (.valueError "Initial balance cannot be negative.")
      else .ok
        { account_number := fresh_id
          account_holder_name := account_holder_name
          balance := b
          account_type := account_type
          transactions := []
          creation_date := today }

/-- `BankAccount._add_transaction` (lines 82-87): appends one record. -/
def BankAccount.add_transaction (a : BankAccount) (transaction_type : String)
    (amount : ℚ) (timestamp : Nat) : BankAccount :=
  { a with transactions := a.transactions ++
      [{ timestamp := timestamp, type := transaction_type, amount := amount }] }

/-- `BankAccount.deposit` (lines 45-54).  On an exception the object is
returned unchanged (all raises precede the mutation in the source). -/
def BankAccount.deposit (a : BankAccount) (amount : Value) (now : Nat) :
    BankAccount × Except Err String :=
  match amount with
  | .nonNumeric _ => (a, .error (.typeError "Deposit amount must be a number."))
  | .num amt =>
      if amt ≤ 0 then (a, .error (.valueError "Deposit amount must be positive."))
      else
        let a1 := { a with balance := a.balance + amt }
        let a2 := a1.add_transaction "Deposit" amt now
        (a2, .ok ("Deposited $" ++ fmt2 amt ++ ". New balance: $" ++ fmt2 a2.balance))

/-- `BankAccount.withdraw` (lines 56-67). -/
def BankAccount.withdraw (a : BankAccount) (amount : Value) (now : Nat) :
    BankAccount × Except Err String :=
  match amount with
  | .nonNumeric _ => (a, .error (.typeError "Withdrawal amount must be a number."))
  | .num amt =>
      if amt ≤ 0 then (a, .error (.valueError "Withdrawal amount must be positive."))
      else if a.balance < amt then (a, .error InsufficientFunds)
      else
        let a1 := { a with balance := a.balance - amt }
        let a2 := a1.add_transaction "Withdrawal" (-amt) now
        (a2, .ok ("Withdrew $" ++ fmt2 amt ++ ". New balance: $" ++ fmt2 a2.balance))

/-- `BankAccount.get_balance` (lines 69-71). -/
def BankAccount.get_balance (a : BankAccount) : ℚ := a.balance

/-- `BankAccount.get_account_details` (lines 73-80). -/
def BankAccount.get_account_details (a : BankAccount) : String :=
  "Account Number: " ++ a.account_number ++ "\n" ++
  "Account Holder: " ++ a.account_holder_name ++ "\n" ++
  "Account Type: " ++ a.account_type ++ "\n" ++
  "Balance: $" ++ fmt2 a.balance ++ "\n" ++
  "Creation Date: " ++ toString a.creation_date ++ "\n"

/-- One account operation together with its ambient timestamp. -/
inductive Op where
  | deposit (amount : Value) (now : Nat)
  | withdraw (amount : Value) (now : Nat)
deriving DecidableEq

/-- Apply one operation to an account; on an exception the state is the
unchanged object, as in the source. -/
def BankAccount.applyOp (a : BankAccount) : Op → BankAccount × Except Err String
  | .deposit v t => a.deposit v t
  | .withdraw v t => a.withdraw v t

/-- The account state after a sequence of attempted operations (failed
ones leave the state unchanged). -/
def BankAccount.run (a : BankAccount) (ops : List Op) : BankAccount :=
  ops.foldl (fun acc op => (acc.applyOp op).1) a

/-- Sum of the signed amounts of a transaction list. -/
def txSum (ts : List Transaction) : ℚ := (ts.map fun t => t.amount).sum

/-- The spec's account invariant relative to the opening balance `init`. -/
def BankAccount.inv (i : ℚ) (a : BankAccount) : Prop :=
  a.balance = i + txSum a.transactions ∧ 0 ≤ a.balance

/-- The `BankingSystem` object state (lines 108-114): an insertion-ordered
mapping from account number to account, modelled as an association list
with the key semantics of a Python dict. -/
structure BankingSystem where
  accounts : List (String × BankAccount)
deriving DecidableEq

/-- Python dict assignment `d[k] = v`: overwrite in place if the key is
present, else append. -/
def dictInsert (m : List (String × BankAccount)) (k : String) (v : BankAccount) :
    List (String × BankAccount) :=
  if m.any fun p => p.1 == k then
    m.map fun p => if p.1 == k then (k, v) else p
  else m ++ [(k, v)]

/-- Python `d.get(k)`. -/
def dictGet (m : List (String × BankAccount)) (k : String) : Option BankAccount :=
  (m.find? fun p => p.1 == k).map fun p => p.2

/-- Python `del d[k]` (keys of a dict are unique, so filtering is exact). -/
def dictDelete (m : List (String × BankAccount)) (k : String) :
    List (String × BankAccount) :=
  m.filter fun p => p.1 != k

/-- `BankingSystem.create_account` (lines 116-125): builds the account,
catches `TypeError` / `ValueError` and converts them into a returned
failure message; on success stores the account under its number. -/
def BankingSystem.create_account (s : BankingSystem) (account_holder_name : String)
    (initial_balance : Value) (account_type : String) (fresh_id : String)
    (today : Nat) : BankingSystem × String :=
  match BankAccount.init account_holder_name initial_balance account_type fresh_id today with
  | .ok account =>
      (⟨dictInsert s.accounts account.account_number account⟩,
       "Account created successfully. Account number: " ++ account.account_number)
  | .error e => (s, "Account creation failed: " ++ e.msg)

/-- `BankingSystem.get_account` (lines 127-129). -/
def BankingSystem.get_account (s : BankingSystem) (account_number : String) :
    Option BankAccount :=
  dictGet s.accounts account_number

/-- `BankingSystem.delete_account` (lines 131-137). -/
def BankingSystem.delete_account (s : BankingSystem) (account_number : String) :
    BankingSystem × String :=
  if s.accounts.any fun p => p.1 == account_number then
    (⟨dictDelete s.accounts account_number⟩,
     "Account " ++ account_number ++ " deleted successfully.")
  else
    (s, "Account " ++ account_number ++ " not found.")

/-- `"-" * 30` of the source. -/
def dashes : String := "------------------------------"

/-- `BankingSystem.list_all_accounts` (lines 139-147): sentinel when the
mapping is empty, else a header followed by every account's details, each
ended by a dash rule, in enumeration (= insertion) order. -/
def BankingSystem.list_all_accounts (s : BankingSystem) : String :=
  if s.accounts.isEmpty then "No accounts in the system."
  else
    s.accounts.foldl (fun acc p => acc ++ p.2.get_account_details ++ dashes ++ "\n")
      (dashes ++ "\nList of All Accounts:\n" ++ dashes ++ "\n")

/-! ## Helper lemmas -/

theorem txSum_append (ts : List Transaction) (tr : Transaction) :
    txSum (ts ++ [tr]) = txSum ts + tr.amount := by
  simp [txSum]

theorem deposit_preserves_inv {i : ℚ} {a : BankAccount} (h : a.inv i)
    (v : Value) (t : Nat) : ((a.deposit v t).1).inv i := by
  obtain ⟨hb, hpos⟩ := h
  cases v with
  | nonNumeric d => exact ⟨hb, hpos⟩
  | num q =>
      by_cases hq : q ≤ 0
      · simpa [BankAccount.deposit, hq] using ⟨hb, hpos⟩
      · push_neg at hq
        refine ⟨?_, ?_⟩
        · simp [BankAccount.deposit, not_le.mpr hq, BankAccount.add_transaction,
            txSum_append, hb]
          ring
        · simp only [BankAccount.deposit, if_neg (not_le.mpr hq)]
          exact add_nonneg hpos hq.le

theorem withdraw_success_shape (a : BankAccount) (amt : ℚ) (now : Nat)
    (hpos : 0 < amt) (hle : amt ≤ a.balance) :
    a.withdraw (.num amt) now =
      ({ a with
          balance := a.balance - amt
          transactions := a.transactions ++
            [{ timestamp := now, type := "Withdrawal", amount := -amt }] },
       .ok ("Withdrew $" ++ fmt2 amt ++ ". New balance: $" ++ fmt2 (a.balance - amt))) := by
  simp [BankAccount.withdraw, not_le.mpr hpos, not_lt.mpr hle, BankAccount.add_transaction]

theorem withdraw_preserves_inv {i : ℚ} {a : BankAccount} (h : a.inv i)
    (v : Value) (t : Nat) : ((a.withdraw v t).1).inv i := by
  obtain ⟨hb, hpos⟩ := h
  cases v with
  | nonNumeric d => exact ⟨hb, hpos⟩
  | num q =>
      by_cases hq : q ≤ 0
      · simpa [BankAccount.withdraw, hq] using ⟨hb, hpos⟩
      · push_neg at hq
        by_cases hlt : a.balance < q
        · simpa [BankAccount.withdraw, not_le.mpr hq, hlt] using ⟨hb, hpos⟩
        · rw [withdraw_success_shape a q t hq (not_lt.mp hlt)]
          refine ⟨?_, sub_nonneg.mpr (not_lt.mp hlt)⟩
          simp [txSum_append, hb]
          ring

theorem applyOp_preserves_inv {i : ℚ} {a : BankAccount} (h : a.inv i) (op : Op) :
    ((a.applyOp op).1).inv i := by
  cases op with
  | deposit v t => exact deposit_preserves_inv h v t
  | withdraw v t => exact withdraw_preserves_inv h v t

theorem run_preserves_inv {i : ℚ} {a : BankAccount} (h : a.inv i) (ops : List Op) :
    (a.run ops).inv i := by
  induction ops generalizing a with
  | nil => exact h
  | cons op ops ih => exact ih (applyOp_preserves_inv h op)

/-! ## Concrete objects used by the witnesses -/

def accW : BankAccount :=
  { account_number := "id1", account_holder_name := "Alice", balance := 100,
    account_type := "Savings", transactions := [], creation_date := 0 }

def opsW : List Op :=
  [Op.deposit (Value.num 5) 1, Op.withdraw (Value.num 30) 2,
   Op.withdraw (Value.num 999) 3, Op.deposit (Value.nonNumeric "x") 4]

/-! ## Claims -/

/-- C1: after any sequence of attempted account operations starting from a
successfully created account, the balance equals the initial balance plus
the sum of the signed amounts of all recorded transactions, and the
balance is nonnegative. -/
theorem C1_account_invariant (name atype id : String) (b : ℚ) (today : Nat)
    (a0 : BankAccount) (ops : List Op)
    (h : BankAccount.init name (.num b) atype id today = .ok a0) :
    (a0.run ops).balance = b + txSum (a0.run ops).transactions ∧
    0 ≤ (a0.run ops).balance := by
  by_cases hb : b < 0
  · simp [BankAccount.init, hb] at h
  · simp only [BankAccount.init, if_neg hb, Except.ok.injEq] at h
    have h0 : a0.inv b := by
      subst h
      exact ⟨by simp [txSum], not_lt.mp hb⟩
    have := run_preserves_inv h0 ops
    exact ⟨this.1, this.2⟩

theorem C1_account_invariant_witness :
    (accW.run opsW).balance = 100 + txSum (accW.run opsW).transactions ∧
    0 ≤ (accW.run opsW).balance :=
  C1_account_invariant "Alice" "Savings" "id1" 100 0 accW opsW rfl

/-- C2: for any account and numeric amount > 0, `deposit` succeeds,
increases the balance by exactly the amount, appends exactly one
"Deposit" transaction with that signed amount while keeping all earlier
records, and returns a confirmation string containing the new balance. -/
theorem C2_deposit_success (a : BankAccount) (amt : ℚ) (now : Nat) (hpos : 0 < amt) :
    (a.deposit (.num amt) now).1.balance = a.balance + amt ∧
    (a.deposit (.num amt) now).1.transactions =
      a.transactions ++ [{ timestamp := now, type := "Deposit", amount := amt }] ∧
    (a.deposit (.num amt) now).2 =
      .ok ("Deposited $" ++ fmt2 amt ++ ". New balance: $" ++ fmt2 (a.balance + amt)) := by
  simp [BankAccount.deposit, not_le.mpr hpos, BankAccount.add_transaction]

theorem C2_deposit_success_witness :
    (accW.deposit (.num 5) 1).1.balance = accW.balance + 5 ∧
    (accW.deposit (.num 5) 1).1.transactions =
      accW.transactions ++ [{ timestamp := 1, type := "Deposit", amount := 5 }] ∧
    (accW.deposit (.num 5) 1).2 =
      .ok ("Deposited $" ++ fmt2 5 ++ ". New balance: $" ++ fmt2 (accW.balance + 5)) :=
  C2_deposit_success accW 5 1 (by norm_num)

/-- C3: for any account and numeric amount with 0 < amount and
amount > balance, `withdraw` fails with `InsufficientFunds` and returns
the object with balance and transactions exactly as before. -/
theorem C3_withdraw_insufficient (a : BankAccount) (amt : ℚ) (now : Nat)
    (hpos : 0 < amt) (hgt : a.balance < amt) :
    a.withdraw (.num amt) now = (a, .error InsufficientFunds) := by
  simp [BankAccount.withdraw, not_le.mpr hpos, hgt]

theorem C3_withdraw_insufficient_witness :
    accW.withdraw (.num 200) 1 = (accW, .error InsufficientFunds) :=
  C3_withdraw_insufficient accW 200 1 (by norm_num) (by norm_num [accW])

/-- C4: for any account and any amount that is non-numeric or ≤ 0, both
`deposit` and `withdraw` fail with an `InvalidAmount`-class error and
leave the object (balance and transactions) unchanged. -/
theorem C4_invalid_amount (a : BankAccount) (v : Value) (now : Nat)
    (h : v.isNumber = false ∨ ∃ q, v = .num q ∧ q ≤ 0) :
    (∃ e, a.deposit v now = (a, .error e) ∧ e.isInvalidAmount = true) ∧
    (∃ e, a.withdraw v now = (a, .error e) ∧ e.isInvalidAmount = true) := by
  cases v with
  | nonNumeric d =>
      exact ⟨⟨_, rfl, rfl⟩, ⟨_, rfl, rfl⟩⟩
  | num q =>
      have hq : q ≤ 0 := by
        rcases h with h | ⟨q', hq', hle⟩
        · simp [Value.isNumber] at h
        · cases hq'
          exact hle
      exact ⟨⟨Err.valueError "Deposit amount must be positive.",
               by simp [BankAccount.deposit, hq], by decide⟩,
             ⟨Err.valueError "Withdrawal amount must be positive.",
               by simp [BankAccount.withdraw, hq], by decide⟩⟩

theorem C4_invalid_amount_witness :
    (∃ e, accW.deposit (.num 0) 7 = (accW, .error e) ∧ e.isInvalidAmount = true) ∧
    (∃ e, accW.withdraw (.num 0) 7 = (accW, .error e) ∧ e.isInvalidAmount = true) :=
  C4_invalid_amount accW (.num 0) 7 (Or.inr ⟨0, rfl, le_refl 0⟩)

/-! ## Dict lemmas -/

theorem find?_map_update (m : List (String × BankAccount)) (k : String) (v : BankAccount)
    (h : (m.any fun p => p.1 == k) = true) :
    ((m.map fun p => if p.1 == k then (k, v) else p).find? fun p => p.1 == k) =
      some (k, v) := by
  induction m with
  | nil => simp at h
  | cons p m ih =>
      by_cases hp : (p.1 == k) = true
      · simp only [List.map_cons, if_pos hp]
        rw [List.find?_cons_of_pos _ (by simp)]
      · have h' : (m.any fun p => p.1 == k) = true := by simpa [hp] using h
        simp only [List.map_cons, if_neg hp]
        rw [List.find?_cons_of_neg _ (by simpa using hp)]
        exact ih h'

theorem dictGet_dictInsert (m : List (String × BankAccount)) (k : String)
    (v : BankAccount) : dictGet (dictInsert m k v) k = some v := by
  unfold dictGet dictInsert
  by_cases h : (m.any fun p => p.1 == k) = true
  · rw [if_pos h, find?_map_update m k v h]
    rfl
  · rw [if_neg h, List.find?_append]
    have hn : (m.find? fun p => p.1 == k) = none := by
      rw [List.find?_eq_none]
      intro x hx hc
      exact h (List.any_eq_true.mpr ⟨x, hx, hc⟩)
    simp [hn]

theorem any_dictDelete (m : List (String × BankAccount)) (k : String) :
    ((dictDelete m k).any fun p => p.1 == k) = false := by
  rw [List.any_eq_false]
  intro p hp
  rw [dictDelete, List.mem_filter] at hp
  simpa using hp.2

/-- Modelled from the spec side for the refinement in C8: "concatenation of
every account's detail snapshot, in enumeration order of the mapping",
each snapshot ended by the dash rule of the source's loop body. -/
def specDetailsConcat : List (String × BankAccount) → String
  | [] => ""
  | p :: rest => p.2.get_account_details ++ dashes ++ "\n" ++ specDetailsConcat rest

theorem foldl_details_eq (l : List (String × BankAccount)) (s0 : String) :
    l.foldl (fun acc p => acc ++ p.2.get_account_details ++ dashes ++ "\n") s0 =
      s0 ++ specDetailsConcat l := by
  induction l generalizing s0 with
  | nil => simp [specDetailsConcat]
  | cons p l ih =>
      rw [List.foldl_cons, ih]
      simp [specDetailsConcat, String.append_assoc]

/-! ## More concrete objects for witnesses -/

def sys0 : BankingSystem := ⟨[]⟩

def sysW : BankingSystem := ⟨[("id1", accW)]⟩

def accEmptyName : BankAccount :=
  { account_number := "id1", account_holder_name := "", balance := 0,
    account_type := "Savings", transactions := [], creation_date := 0 }

/-- C5: `create_account` never raises: on an invalid initial balance it
returns the ledger unchanged together with a failure message embedding the
validation error; on a valid one it returns a success message carrying the
new id and stores the account in the mapping under that id. -/
theorem C5_create_account_total (s : BankingSystem) (name atype id : String)
    (today : Nat) :
    (∀ d, s.create_account name (.nonNumeric d) atype id today =
      (s, "Account creation failed: Initial balance must be a number.")) ∧
    (∀ b : ℚ, b < 0 → s.create_account name (.num b) atype id today =
      (s, "Account creation failed: Initial balance cannot be negative.")) ∧
    (∀ b : ℚ, 0 ≤ b →
      ∃ a, BankAccount.init name (.num b) atype id today = .ok a ∧
        s.create_account name (.num b) atype id today =
          (⟨dictInsert s.accounts id a⟩,
           "Account created successfully. Account number: " ++ id) ∧
        (s.create_account name (.num b) atype id today).1.get_account id = some a) := by
  refine ⟨fun d => rfl, ?_, ?_⟩
  · intro b hb
    simp [BankingSystem.create_account, BankAccount.init, hb, Err.msg]
  · intro b hb
    refine ⟨{ account_number := id, account_holder_name := name, balance := b,
              account_type := atype, transactions := [], creation_date := today },
            ?_, ?_, ?_⟩
    · simp [BankAccount.init, not_lt.mpr hb]
    · simp [BankingSystem.create_account, BankAccount.init, not_lt.mpr hb]
    · simp [BankingSystem.create_account, BankAccount.init, not_lt.mpr hb,
        BankingSystem.get_account, dictGet_dictInsert]

theorem C5_create_account_total_witness :
    sys0.create_account "Alice" (.num (-10)) "Savings" "id1" 0 =
      (sys0, "Account creation failed: Initial balance cannot be negative.") :=
  (C5_create_account_total sys0 "Alice" "Savings" "id1" 0).2.1 (-10) (by norm_num)

/-- C6: round-trip: after a successful `create_account` with a non-empty
holder name and a valid non-negative initial balance, the returned message
carries the new id, and `get_account` on that id yields an account whose
`get_balance` is exactly the initial balance. -/
theorem C6_create_get_roundtrip (s : BankingSystem) (name : String) (b : ℚ)
    (atype id : String) (today : Nat) (hname : name ≠ "") (hb : 0 ≤ b) :
    (s.create_account name (.num b) atype id today).2 =
      "Account created successfully. Account number: " ++ id ∧
    ∃ a, (s.create_account name (.num b) atype id today).1.get_account id = some a ∧
      a.get_balance = b := by
  refine ⟨?_, ⟨{ account_number := id, account_holder_name := name, balance := b,
                 account_type := atype, transactions := [], creation_date := today },
               ?_, rfl⟩⟩
  · simp [BankingSystem.create_account, BankAccount.init, not_lt.mpr hb]
  · simp [BankingSystem.create_account, BankAccount.init, not_lt.mpr hb,
      BankingSystem.get_account, dictGet_dictInsert]

theorem C6_create_get_roundtrip_witness :
    (sys0.create_account "Alice" (.num 100) "Savings" "id1" 0).2 =
      "Account created successfully. Account number: " ++ "id1" ∧
    ∃ a, (sys0.create_account "Alice" (.num 100) "Savings" "id1" 0).1.get_account
        "id1" = some a ∧ a.get_balance = 100 :=
  C6_create_get_roundtrip sys0 "Alice" 100 "Savings" "id1" 0 (by decide) (by norm_num)

/-- C7: `delete_account` on a present id removes the entry and returns the
success message, and an immediately repeated call returns the "not found"
message with the ledger unchanged; on an absent id it returns the
"not found" message and changes nothing. -/
theorem C7_delete_idempotent (s : BankingSystem) (id : String) :
    ((s.accounts.any fun p => p.1 == id) = true →
      (s.delete_account id).1.accounts = dictDelete s.accounts id ∧
      (s.delete_account id).2 = "Account " ++ id ++ " deleted successfully." ∧
      (s.delete_account id).1.delete_account id =
        ((s.delete_account id).1, "Account " ++ id ++ " not found.")) ∧
    ((s.accounts.any fun p => p.1 == id) = false →
      s.delete_account id = (s, "Account " ++ id ++ " not found.")) := by
  constructor
  · intro h
    refine ⟨by simp [BankingSystem.delete_account, h],
            by simp [BankingSystem.delete_account, h], ?_⟩
    simp [BankingSystem.delete_account, h, any_dictDelete]
  · intro h
    simp [BankingSystem.delete_account, h]

theorem C7_delete_idempotent_witness :
    (sysW.delete_account "id1").1.accounts = dictDelete sysW.accounts "id1" ∧
    (sysW.delete_account "id1").2 = "Account " ++ "id1" ++ " deleted successfully." ∧
    (sysW.delete_account "id1").1.delete_account "id1" =
      ((sysW.delete_account "id1").1, "Account " ++ "id1" ++ " not found.") :=
  (C7_delete_idempotent sysW "id1").1 (by decide)

/-- C8: `list_all_accounts` on an empty ledger returns the "no accounts"
sentinel; on a non-empty ledger it returns the header followed by the
concatenation of every account's detail snapshot in enumeration order; in
particular with a single stored account the output contains that account's
id and holder name. -/
theorem C8_list_all_accounts (s : BankingSystem) (id : String) (a : BankAccount) :
    (BankingSystem.mk []).list_all_accounts = "No accounts in the system." ∧
    (s.accounts ≠ [] → s.list_all_accounts =
      dashes ++ "\nList of All Accounts:\n" ++ dashes ++ "\n" ++
        specDetailsConcat s.accounts) ∧
    (∃ pre post, (BankingSystem.mk [(id, a)]).list_all_accounts =
      pre ++ (a.account_number ++ post)) ∧
    (∃ pre post, (BankingSystem.mk [(id, a)]).list_all_accounts =
      pre ++ (a.account_holder_name ++ post)) := by
  refine ⟨rfl, ?_, ?_, ?_⟩
  · intro hne
    have hiso : ¬ (s.accounts.isEmpty = true) := by
      cases hs : s.accounts with
      | nil => exact absurd hs hne
      | cons p l => simp
    unfold BankingSystem.list_all_accounts
    rw [if_neg hiso, foldl_details_eq]
  · refine ⟨dashes ++ "\nList of All Accounts:\n" ++ dashes ++ "\n" ++
      "Account Number: ",
      "\n" ++ "Account Holder: " ++ a.account_holder_name ++ "\n" ++
        "Account Type: " ++ a.account_type ++ "\n" ++ "Balance: $" ++
        fmt2 a.balance ++ "\n" ++ "Creation Date: " ++ toString a.creation_date ++
        "\n" ++ dashes ++ "\n" ++ "", ?_⟩
    unfold BankingSystem.list_all_accounts
    rw [if_neg (by simp), foldl_details_eq]
    simp only [specDetailsConcat, BankAccount.get_account_details, String.append_assoc]
  · refine ⟨dashes ++ "\nList of All Accounts:\n" ++ dashes ++ "\n" ++
      "Account Number: " ++ a.account_number ++ "\n" ++ "Account Holder: ",
      "\n" ++ "Account Type: " ++ a.account_type ++ "\n" ++ "Balance: $" ++
        fmt2 a.balance ++ "\n" ++ "Creation Date: " ++ toString a.creation_date ++
        "\n" ++ dashes ++ "\n" ++ "", ?_⟩
    unfold BankingSystem.list_all_accounts
    rw [if_neg (by simp), foldl_details_eq]
    simp only [specDetailsConcat, BankAccount.get_account_details, String.append_assoc]

theorem C8_list_all_accounts_witness :
    sysW.list_all_accounts =
      dashes ++ "\nList of All Accounts:\n" ++ dashes ++ "\n" ++
        specDetailsConcat sysW.accounts :=
  (C8_list_all_accounts sysW "id1" accW).2.1 (by decide)

/-- C9 counterexample: the core never validates the holder name, so an
account with an empty holder name is created successfully, both at the
`BankAccount` constructor and through `BankingSystem.create_account`. -/
theorem C9_counterexample :
    BankAccount.init "" (.num 0) "Savings" "id1" 0 = .ok accEmptyName ∧
    (BankingSystem.mk []).create_account "" (.num 0) "Savings" "id1" 0 =
      (⟨[("id1", accEmptyName)]⟩,
       "Account created successfully. Account number: " ++ "id1") ∧
    accEmptyName.account_holder_name = "" :=
  ⟨rfl, rfl, rfl⟩

/-- C9 (amended): `holder_name` is set at creation to exactly the string
supplied by the caller; the core performs no non-emptiness validation (the
presentation layer is what rejects empty names). -/
theorem C9_amended_holder_name (name : String) (b : ℚ) (atype id : String)
    (today : Nat) (hb : 0 ≤ b) :
    ∃ a, BankAccount.init name (.num b) atype id today = .ok a ∧
      a.account_holder_name = name := by
  refine ⟨{ account_number := id, account_holder_name := name, balance := b,
            account_type := atype, transactions := [], creation_date := today },
          ?_, rfl⟩
  simp [BankAccount.init, not_lt.mpr hb]

theorem C9_amended_holder_name_witness :
    ∃ a, BankAccount.init "Alice" (.num 100) "Savings" "id1" 0 = .ok a ∧
      a.account_holder_name = "Alice" :=
  C9_amended_holder_name "Alice" 100 "Savings" "id1" 0 (by norm_num)

/-- C10: withdrawing an amount exactly equal to a positive balance
succeeds: the balance becomes exactly 0, one "Withdrawal" transaction with
signed amount equal to the negated balance is appended, and the
confirmation string is returned. -/
theorem C10_withdraw_full_balance (a : BankAccount) (now : Nat)
    (hpos : 0 < a.balance) :
    (a.withdraw (.num a.balance) now).1.balance = 0 ∧
    (a.withdraw (.num a.balance) now).1.transactions =
      a.transactions ++
        [{ timestamp := now, type := "Withdrawal", amount := -a.balance }] ∧
    (a.withdraw (.num a.balance) now).2 =
      .ok ("Withdrew $" ++ fmt2 a.balance ++ ". New balance: $" ++ fmt2 0) := by
  rw [withdraw_success_shape a a.balance now hpos le_rfl]
  exact ⟨by simp, rfl, by simp⟩

theorem C10_withdraw_full_balance_witness :
    (accW.withdraw (.num accW.balance) 9).1.balance = 0 ∧
    (accW.withdraw (.num accW.balance) 9).1.transactions =
      accW.transactions ++
        [{ timestamp := 9, type := "Withdrawal", amount := -accW.balance }] ∧
    (accW.withdraw (.num accW.balance) 9).2 =
      .ok ("Withdrew $" ++ fmt2 accW.balance ++ ". New balance: $" ++ fmt2 0) :=
  C10_withdraw_full_balance accW 9 (by norm_num [accW])

end BankApp
